import Mathlib

/-!
Shallow embedding of the safe-duckai-security-agent transaction risk pipeline.

Source files embedded:
- `src/securityService.ts` — the five security checks and `analyzeTransaction`
- `src/utils/addressLists.ts` — `AddressListService` (reputation cache)
- `src/index.ts` — `analyzePendingTransactions` (signing orchestrator)

Modelling conventions:
- JS strings are Lean `String`; `String.prototype.toLowerCase` is modelled by
  `jsToLowerCase` (ASCII lowering, the only case arising for hex addresses).
- JS `BigInt(tx.value)` is modelled by storing the parsed numeric value as a
  `Nat` in the `value` field (Safe transaction values are nonnegative decimal
  strings).
- `async` functions that can throw are modelled as `Except String _`; the
  external collaborators (LLM report, signing + confirmation submission,
  reputation fetch) are passed in as function / data parameters.
-/

namespace SafeDuck

/-- Model of JS `String.prototype.toLowerCase` (ASCII range, as used on
hex addresses throughout the source). -/
def jsToLowerCase (s : String) : String := ⟨s.data.map Char.toLower⟩

/-- Substring test: model of JS `String.prototype.includes`. -/
def strIncludes (s pat : String) : Bool :=
  s.data.tails.any (fun t => pat.data.isPrefixOf t)

/-- Model of testing a case-insensitive regex that is an alternation of
literal words (e.g. `/(claim|airdrop|free)/i`) against a string. -/
def testWordsIgnoreCase (s : String) (kws : List String) : Bool :=
  kws.any (fun kw => strIncludes (jsToLowerCase s) kw)

/-- `const maxUint256 = 2n ** 256n - 1n` (securityService.ts line 8). -/
def maxUint256 : Nat := 2 ^ 256 - 1

/-- Risk levels of a `SecurityCheck` (securityService.ts lines 10-14). -/
inductive RiskLevel where
  | none
  | low
  | medium
  | high
  | critical
deriving DecidableEq, Repr

/-- `SecurityCheck` record (securityService.ts lines 10-14). -/
structure SecurityCheck where
  safe : Bool
  risk : RiskLevel
  message : String
deriving DecidableEq, Repr

/-- Decoded call parameter: only its `value` is read by the source. -/
structure DecodedParam where
  value : String
deriving DecidableEq, Repr

/-- `tx.dataDecoded` shape: method name plus optional parameter array. -/
structure DataDecoded where
  method : String
  parameters : Option (List DecodedParam)
deriving DecidableEq, Repr

/-- The fields of `SafeMultisigTransactionResponse` that the embedded code
reads. `value` holds the parsed `BigInt(tx.value)`; `data` is `none` for a
null/undefined calldata field; `executionDate` is `none` when the JS field
is `null`. -/
structure Tx where
  «to» : String
  value : Nat
  data : Option String
  dataDecoded : Option DataDecoded
  executionDate : Option String
  safeTxHash : String
  transactionHash : String
deriving DecidableEq, Repr

/-- JS falsiness of the optional `tx.data` string (`!tx.data` is true for
`null`, `undefined` and `""`). -/
def dataFalsy : Option String → Bool
  | Option.none => true
  | some s => s = ""

/-- `VERIFIED_CONTRACTS` set (securityService.ts lines 26-29); note the
entries are mixed-case and `checkContractInteraction` queries it with the
raw `tx.«to»`. -/
def VERIFIED_CONTRACTS : List String :=
  ["0x00000000006c3852cbEf3e08E8dF289169EdE581",
   "0x7Be8076f4EA4A4AD08075C2508e481d6C946D12b"]

/-- The literal source text of `SUSPICIOUS_PATTERNS.UNLIMITED_APPROVAL`
(64 `f`s), used via `.includes(...source)` in `checkContractInteraction`. -/
def UNLIMITED_APPROVAL_SOURCE : String :=
  "0xffffffffffffffffffffffffffffffffffffffffffffffffffffffffffffffff"

/-- `SUSPICIOUS_SIGNATURES` values in object order
(securityService.ts lines 38-43). -/
def SUSPICIOUS_SIGNATURES : List String :=
  ["0xa9059cbb", "0x095ea7b3", "0x40c10f19", "0x8129fc1c"]

/-- State of `AddressListService` (addressLists.ts lines 10-14): the two
reputation sets (stored lowercased) and the last update time. -/
structure AddressListService where
  darklist : List String
  lightlist : List String
  lastUpdate : Option Nat
deriving DecidableEq, Repr

/-- `isDarklisted` (addressLists.ts lines 56-58):
`this.darklist.has(address.toLowerCase())`. -/
def AddressListService.isDarklisted (svc : AddressListService) (address : String) : Bool :=
  svc.darklist.contains (jsToLowerCase address)

/-- `isLightlisted` (addressLists.ts lines 60-62):
`this.lightlist.has(address.toLowerCase())`. -/
def AddressListService.isLightlisted (svc : AddressListService) (address : String) : Bool :=
  svc.lightlist.contains (jsToLowerCase address)

/-- Raw reputation-list record (addressLists.ts lines 4-8). -/
structure AddressEntry where
  address : String
  comment : Option String
  date : Option String
deriving DecidableEq, Repr

/-- `AddressListService.initialize` (addressLists.ts lines 25-54).
The `Promise.all` of the two fetches is modelled by a single
`Except`-valued fetch result delivering both entry lists or failing as a
whole. On success both sets are replaced with the lowercased addresses and
`lastUpdate` is set; on failure the error is logged and rethrown
(`throw error`), leaving every field unchanged. -/
def AddressListService.initializeLists (svc : AddressListService)
    (fetchResult : Except String (List AddressEntry × List AddressEntry))
    (now : Nat) : Except String Unit × AddressListService :=
  match fetchResult with
  | .ok (darkEntries, lightEntries) =>
      (.ok (),
       { darklist := darkEntries.map (fun e => jsToLowerCase e.address),
         lightlist := lightEntries.map (fun e => jsToLowerCase e.address),
         lastUpdate := some now })
  | .error e => (.error e, svc)

/-- `checkAddressPoisoning` (securityService.ts lines 90-137).
`blacklist` is the static list imported from `utils/address.json`;
`svc` is the `AddressListService` singleton. The body cannot throw, so the
surrounding try/catch is inert and the model is total. -/
def checkAddressPoisoning (blacklist : List String) (svc : AddressListService)
    (tx : Tx) : SecurityCheck :=
  let toAddress := jsToLowerCase tx.«to»
  let isBlacklisted :=
    blacklist.any (fun addr => jsToLowerCase addr == jsToLowerCase toAddress)
  if isBlacklisted then
    { safe := false, risk := .critical,
      message := "Destination address is known to be malicious (MyEtherWallet darklist)" }
  else if svc.isLightlisted toAddress then
    { safe := true, risk := .none,
      message := "Destination address is verified (MyEtherWallet lightlist)" }
  else
    { safe := true, risk := .none,
      message := "No address poisoning risks detected" }

/-- `checkApprovalRisks` (securityService.ts lines 224-245). This function
has no try/catch: when the decoded method is `approve` it dereferences
`tx.dataDecoded.parameters[1].value` (and `parameters[0].value`), which in
JS throws a `TypeError` when `parameters` is absent or has fewer than two
entries; the thrown case is modelled as `Except.error`. -/
def checkApprovalRisks (tx : Tx) : Except String SecurityCheck :=
  match tx.dataDecoded with
  | some dec =>
    if dec.method = "approve" then
      match dec.parameters with
      | some ps =>
        match ps[1]?, ps[0]? with
        | some p1, some p0 =>
          if p1.value = Nat.repr maxUint256 then
            .ok { safe := false, risk := .high,
                  message := "Infite Approval risk detected for token: " ++ p0.value }
          else
            .ok { safe := true, risk := .none, message := "No approval risks detected" }
        | _, _ =>
          .error "TypeError: Cannot read properties of undefined (reading value)"
      | Option.none =>
          .error "TypeError: Cannot read properties of undefined (reading 1)"
    else
      .ok { safe := true, risk := .none, message := "No approval risks detected" }
  | Option.none =>
      .ok { safe := true, risk := .none, message := "No approval risks detected" }

/-- `checkContractInteraction` (securityService.ts lines 247-292). -/
def checkContractInteraction (tx : Tx) : SecurityCheck :=
  if dataFalsy tx.data || tx.data == some "0x" then
    { safe := true, risk := .none,
      message := "Simple ETH transfer - no contract interaction" }
  else
    let d := tx.data.getD ""
    let functionSignature : String := ⟨d.data.take 10⟩
    if VERIFIED_CONTRACTS.contains tx.«to» then
      { safe := true, risk := .none, message := "Interaction with verified contract" }
    else if SUSPICIOUS_SIGNATURES.contains functionSignature then
      { safe := false, risk := .high, message := "Suspicious contract interaction detected" }
    else if strIncludes d UNLIMITED_APPROVAL_SOURCE then
      { safe := false, risk := .high, message := "Unlimited token approval detected" }
    else
      { safe := true, risk := .low, message := "Contract interaction appears normal" }

/-- `checkKnownScams` (securityService.ts lines 294-337). -/
def checkKnownScams (tx : Tx) : SecurityCheck :=
  if dataFalsy tx.data then
    { safe := true, risk := .none, message := "No known scam patterns detected" }
  else
    let d := tx.data.getD ""
    if testWordsIgnoreCase d ["claim", "airdrop", "free", "reward", "prize", "giveaway"] then
      { safe := false, risk := .critical, message := "Transaction matches known scam patterns" }
    else if testWordsIgnoreCase d ["mint", "claim", "reward"] then
      { safe := false, risk := .high, message := "Suspicious token minting or claiming" }
    else if testWordsIgnoreCase d ["upgrade", "migrate"] then
      { safe := false, risk := .high, message := "Suspicious upgrade or migration" }
    else if testWordsIgnoreCase d ["emergency", "urgent"] then
      { safe := false, risk := .high, message := "Suspicious emergency action" }
    else
      { safe := true, risk := .none, message := "No known scam patterns detected" }

/-- `thresholds.low` = 1 ETH in wei (securityService.ts line 344). -/
def lowThreshold : Nat := 1000000000000000000

/-- `thresholds.medium` = 10 ETH in wei (securityService.ts line 345). -/
def mediumThreshold : Nat := 10000000000000000000

/-- `thresholds.high` = 50 ETH in wei (securityService.ts line 346). -/
def highThreshold : Nat := 50000000000000000000

/-- `checkValueTransfer` (securityService.ts lines 339-380); the messages
inline `ethers.formatEther` of the corresponding threshold. -/
def checkValueTransfer (tx : Tx) : SecurityCheck :=
  let value := tx.value
  if value > highThreshold then
    { safe := false, risk := .high, message := "Very high value transfer detected (>50.0 ETH)" }
  else if value > mediumThreshold then
    { safe := false, risk := .medium, message := "High value transfer detected (>10.0 ETH)" }
  else if value > lowThreshold then
    { safe := true, risk := .low, message := "Moderate value transfer detected (>1.0 ETH)" }
  else
    { safe := true, risk := .none, message := "Value transfer within safe limits" }

/-- `SecurityChecks` map with its five fixed keys in the object-literal
order of `analyzeTransaction` (securityService.ts lines 398-404). -/
structure SecurityChecks where
  addressPoisoning : SecurityCheck
  valueTransfer : SecurityCheck
  contractInteraction : SecurityCheck
  knownScams : SecurityCheck
  approvalRisks : SecurityCheck
deriving DecidableEq, Repr

/-- `Object.values(securityChecks)` in JS insertion order. -/
def SecurityChecks.values (c : SecurityChecks) : List SecurityCheck :=
  [c.addressPoisoning, c.valueTransfer, c.contractInteraction, c.knownScams, c.approvalRisks]

/-- `Object.entries(securityChecks)` in JS insertion order. -/
def SecurityChecks.named (c : SecurityChecks) : List (String × SecurityCheck) :=
  [("addressPoisoning", c.addressPoisoning), ("valueTransfer", c.valueTransfer),
   ("contractInteraction", c.contractInteraction), ("knownScams", c.knownScams),
   ("approvalRisks", c.approvalRisks)]

/-- `riskEmoji` map of `generateSecuritySummary` (agent.ts). -/
def riskEmoji : RiskLevel → String
  | .none => "✅"
  | .low => "💚"
  | .medium => "💛"
  | .high => "🔴"
  | .critical => "⛔"

/-- `generateSecuritySummary` (agent.ts): one line per check, joined by
newlines. -/
def generateSecuritySummary (c : SecurityChecks) : String :=
  String.intercalate "\n"
    (c.named.map (fun nc => riskEmoji nc.2.risk ++ " " ++ nc.1 ++ ": " ++ nc.2.message))

/-- `Verdict` returned by `analyzeTransaction`
(securityService.ts lines 430-435). -/
structure Verdict where
  safe : Bool
  securityChecks : SecurityChecks
  aiAnalysis : String
  summary : String
deriving DecidableEq, Repr

/-- `analyzeTransaction` (securityService.ts lines 382-443). The five
checks are awaited together by `Promise.all`; if any of them rejects
(only `checkApprovalRisks` can) the whole `Promise.all` rejects and the
catch block rethrows, so the model propagates the error. `aiReport`
models `processSecurityReport` (which never throws: it has its own
fallback string). -/
def analyzeTransaction (blacklist : List String) (svc : AddressListService)
    (aiReport : Tx → SecurityChecks → String) (tx : Tx) : Except String Verdict :=
  match checkApprovalRisks tx with
  | .error e => .error e
  | .ok approvalRisks =>
    let securityChecks : SecurityChecks :=
      { addressPoisoning := checkAddressPoisoning blacklist svc tx
        valueTransfer := checkValueTransfer tx
        contractInteraction := checkContractInteraction tx
        knownScams := checkKnownScams tx
        approvalRisks := approvalRisks }
    let criticalIssues := securityChecks.values.filter (fun c => c.risk == RiskLevel.critical)
    let highRiskIssues := securityChecks.values.filter (fun c => c.risk == RiskLevel.high)
    let isSafe : Bool := criticalIssues.length == 0 && highRiskIssues.length == 0
    .ok { safe := isSafe
          securityChecks := securityChecks
          aiAnalysis := aiReport tx securityChecks
          summary := generateSecuritySummary securityChecks }

/-- One entry of the `transactionsResults` array built by
`analyzePendingTransactions` (index.ts lines 113-118): the four fields of
the verdict, and nothing else — in particular no field for a signing or
submission error. -/
structure TxResult where
  safe : Bool
  securityChecks : SecurityChecks
  summary : String
  aiAnalysis : String
deriving DecidableEq, Repr

/-- The value returned by `analyzePendingTransactions`:
`halted` is the early return `{safe: false, securityChecks, summary,
aiAnalysis}` (index.ts lines 125-130); `completed` is the final return
`{safe: true, transactionsResults, lastTransaction}` (lines 146-151);
`errored` is the promise rejecting because `runSecurityChecks` threw. -/
inductive BatchResult where
  | halted (securityChecks : SecurityChecks) (summary : String) (aiAnalysis : String)
  | completed (transactionsResults : List TxResult) (lastTransaction : Option Tx)
  | errored (e : String)
deriving DecidableEq, Repr

/-- Observable side effects of one batch run: which transactions were fed
to `runSecurityChecks`, which had a signature computed/submitted, and the
`Logger.error` messages emitted by the catch block around signing. -/
structure BatchTrace where
  evaluated : List Tx
  signAttempts : List Tx
  errorLog : List String
deriving DecidableEq, Repr

/-- The `Logger.error("security", "Failed to sign transaction", ...)` entry
(index.ts lines 138-141), rendered with the transaction hash and error. -/
def signFailLog (tx : Tx) (e : String) : String :=
  "Failed to sign transaction " ++ tx.transactionHash ++ ": " ++ e

/-- The `TxResult` pushed for a verdict (index.ts lines 113-118). -/
def Verdict.toTxResult (v : Verdict) : TxResult :=
  { safe := v.safe, securityChecks := v.securityChecks,
    summary := v.summary, aiAnalysis := v.aiAnalysis }

/-- The `for (const tx of notExecutedTransactions)` loop of
`analyzePendingTransactions` (index.ts lines 109-143). `evalTx` models
`runSecurityChecks` (which just forwards
`securityService.analyzeTransaction`); `signAndConfirm` models the try
block `safeAcc.signHash(tx.safeTxHash)` followed by
`apiKit.confirmTransaction(...)`, whose failures are caught and logged.
Returns `some` of an early outcome (halt or thrown evaluation error) or
`none` when the loop ran to completion, along with the accumulated
`transactionsResults` and the trace. -/
def processLoop (evalTx : Tx → Except String Verdict)
    (signAndConfirm : Tx → Except String Unit) :
    List Tx → List TxResult → BatchTrace →
    Option BatchResult × List TxResult × BatchTrace
  | [], results, tr => (Option.none, results, tr)
  | tx :: rest, results, tr =>
    match evalTx tx with
    | .error e =>
        (some (.errored e), results, { tr with evaluated := tr.evaluated ++ [tx] })
    | .ok v =>
      let results := results ++ [v.toTxResult]
      let tr := { tr with evaluated := tr.evaluated ++ [tx] }
      if v.safe then
        let tr := { tr with signAttempts := tr.signAttempts ++ [tx] }
        match signAndConfirm tx with
        | .ok _ => processLoop evalTx signAndConfirm rest results tr
        | .error e =>
            processLoop evalTx signAndConfirm rest results
              { tr with errorLog := tr.errorLog ++ [signFailLog tx e] }
      else
        (some (.halted v.securityChecks v.summary v.aiAnalysis), results, tr)

/-- `analyzePendingTransactions` (index.ts lines 81-152): filter the
pending queue to unexecuted transactions (`executionDate === null`),
process them in order, and either return the early outcome or the
`{safe: true, transactionsResults, lastTransaction}` result, where
`lastTransaction` indexes the filtered list at `length - 1` (which for the
empty list is JS `undefined`, modelled as `none`). The `getSafeInfo` call
and `console.log`s have no effect on the result and are not modelled. -/
def analyzePendingTransactions (evalTx : Tx → Except String Verdict)
    (signAndConfirm : Tx → Except String Unit)
    (transactions : List Tx) : BatchResult × BatchTrace :=
  let notExecuted := transactions.filter (fun tx => tx.executionDate.isNone)
  match processLoop evalTx signAndConfirm notExecuted [] ⟨[], [], []⟩ with
  | (some r, _, tr) => (r, tr)
  | (Option.none, results, tr) =>
      (.completed results (notExecuted.get? (notExecuted.length - 1)), tr)

/-! ### Helper lemmas -/

theorem char_toNat_ofNat_valid {n : Nat} (h : n < 55296) : (Char.ofNat n).toNat = n := by
  have hv : n.isValidChar := Or.inl h
  unfold Char.ofNat
  rw [dif_pos hv]
  rfl

theorem char_toLower_toLower (c : Char) : c.toLower.toLower = c.toLower := by
  unfold Char.toLower
  by_cases h : c.toNat ≥ 65 ∧ c.toNat ≤ 90
  · rw [if_pos h]
    have h32 : (Char.ofNat (c.toNat + 32)).toNat = c.toNat + 32 :=
      char_toNat_ofNat_valid (by omega)
    rw [if_neg]
    rw [h32]
    omega
  · rw [if_neg h, if_neg h]

theorem jsToLowerCase_idem (s : String) :
    jsToLowerCase (jsToLowerCase s) = jsToLowerCase s := by
  unfold jsToLowerCase
  congr 1
  show (s.data.map Char.toLower).map Char.toLower = s.data.map Char.toLower
  rw [List.map_map]
  exact List.map_congr_left (fun a _ => char_toLower_toLower a)

/-! ### Shared concrete inputs for witnesses -/

/-- A plain value-transfer transaction with no calldata. -/
def witnessTx : Tx :=
  ⟨"0xabc", 0, Option.none, Option.none, Option.none, "h1", "t1"⟩

/-- A reputation cache with empty sets. -/
def witnessSvc : AddressListService := ⟨[], [], Option.none⟩

/-- The checks produced for `witnessTx` against empty lists. -/
def witnessChecks : SecurityChecks :=
  { addressPoisoning := ⟨true, .none, "No address poisoning risks detected"⟩
    valueTransfer := ⟨true, .none, "Value transfer within safe limits"⟩
    contractInteraction := ⟨true, .none, "Simple ETH transfer - no contract interaction"⟩
    knownScams := ⟨true, .none, "No known scam patterns detected"⟩
    approvalRisks := ⟨true, .none, "No approval risks detected"⟩ }

/-- The verdict produced for `witnessTx` against empty lists. -/
def witnessVerdict : Verdict :=
  ⟨true, witnessChecks, "AI", generateSecuritySummary witnessChecks⟩

/-! ### C1 — aggregation rule -/

/-- **C1**: a verdict produced by `analyzeTransaction` has `safe = true`
iff none of the five checks in its `securityChecks` map has risk `high` or
`critical`; moreover the advisory `aiAnalysis` text plays no role: any
other report function yields a verdict with the same `safe` bit (and the
iff shows the per-check `safe` booleans play no role either — the decision
is a function of the risks alone). -/
theorem analyzeTransaction_safe_iff_no_high_critical
    (blacklist : List String) (svc : AddressListService)
    (aiReport : Tx → SecurityChecks → String) (tx : Tx) (v : Verdict)
    (h : analyzeTransaction blacklist svc aiReport tx = .ok v) :
    (v.safe = true ↔ ∀ c ∈ v.securityChecks.values,
        c.risk ≠ RiskLevel.high ∧ c.risk ≠ RiskLevel.critical) ∧
    (∀ aiReport2 v2, analyzeTransaction blacklist svc aiReport2 tx = .ok v2 →
        v2.safe = v.safe) := by
  cases hA : checkApprovalRisks tx with
  | error e => rw [analyzeTransaction, hA] at h; exact absurd h (by simp)
  | ok approvalCheck =>
    rw [analyzeTransaction, hA] at h
    simp only [Except.ok.injEq] at h
    subst h
    constructor
    · simp only [Bool.and_eq_true, beq_iff_eq, List.length_eq_zero,
        List.filter_eq_nil_iff, beq_iff_eq]
      constructor
      · rintro ⟨hc, hh⟩ c hmem
        exact ⟨hh c hmem, hc c hmem⟩
      · intro hall
        exact ⟨fun c hm => ((hall c hm)).2, fun c hm => ((hall c hm)).1⟩
    · intro aiReport2 v2 h2
      rw [analyzeTransaction, hA] at h2
      simp only [Except.ok.injEq] at h2
      subst h2
      rfl

/-- Witness for C1 at a concrete transaction. -/
theorem analyzeTransaction_safe_iff_no_high_critical_witness :
    (witnessVerdict.safe = true ↔ ∀ c ∈ witnessVerdict.securityChecks.values,
        c.risk ≠ RiskLevel.high ∧ c.risk ≠ RiskLevel.critical) ∧
    (∀ aiReport2 v2,
        analyzeTransaction [] witnessSvc aiReport2 witnessTx = .ok v2 →
        v2.safe = witnessVerdict.safe) :=
  analyzeTransaction_safe_iff_no_high_critical [] witnessSvc
    (fun _ _ => "AI") witnessTx witnessVerdict rfl

/-! ### C2 — per-check failure containment -/

/-- A pending transaction whose decoded method is `approve` but whose
decoded parameter array is empty (e.g. a nonstandard `approve()`
overload). -/
def badApproveTx : Tx :=
  ⟨"0xaaa", 0, Option.none, some ⟨"approve", some []⟩, Option.none, "h2", "t2"⟩

/-- **C2** (code bug): `checkApprovalRisks` does not catch its own
failure. On a transaction decoded as `approve` with an empty parameter
list it dereferences `parameters[1].value` and throws, and the exception
propagates out of `analyzeTransaction` (whose catch block rethrows), so
the evaluation aborts and no `SecurityChecks` map with all five entries is
produced — contradicting the spec's requirement that a single check's
failure never abort the evaluation. -/
theorem checkApprovalRisks_propagates_failure :
    checkApprovalRisks badApproveTx =
      .error "TypeError: Cannot read properties of undefined (reading value)" ∧
    analyzeTransaction [] witnessSvc (fun _ _ => "AI") badApproveTx =
      .error "TypeError: Cannot read properties of undefined (reading value)" :=
  ⟨rfl, rfl⟩

/-! ### C4 — case-insensitive address comparison -/

/-- A transaction to a verified contract, written in its original mixed
case, with nonempty calldata. -/
def verifiedCaseTx : Tx :=
  ⟨"0x00000000006c3852cbEf3e08E8dF289169EdE581", 0, some "0x12345678",
   Option.none, Option.none, "h3", "t3"⟩

/-- **C4** (counterexample): not *every* membership query is
case-insensitive. The verified-contract set is queried with the raw
`tx.to` against mixed-case entries, so the query on `a` and on
`lowercase(a)` disagree, and `checkContractInteraction` returns different
results for the same address in different case. -/
theorem verified_contract_query_case_sensitive :
    VERIFIED_CONTRACTS.contains verifiedCaseTx.«to» = true ∧
    VERIFIED_CONTRACTS.contains (jsToLowerCase verifiedCaseTx.«to») = false ∧
    checkContractInteraction verifiedCaseTx ≠
      checkContractInteraction
        { verifiedCaseTx with «to» := jsToLowerCase verifiedCaseTx.«to» } := by
  decide

/-- **C4** (amended): the reputation-cache queries `isDarklisted` /
`isLightlisted` and the denylist/allowlist comparisons inside
`checkAddressPoisoning` are case-insensitive — they agree on `a` and
`lowercase(a)` — but the verified-contract set queried by
`checkContractInteraction` is compared case-sensitively (see the
counterexample). -/
theorem reputation_queries_case_insensitive
    (svc : AddressListService) (blacklist : List String) (a : String) (tx : Tx) :
    svc.isDarklisted a = svc.isDarklisted (jsToLowerCase a) ∧
    svc.isLightlisted a = svc.isLightlisted (jsToLowerCase a) ∧
    checkAddressPoisoning blacklist svc tx =
      checkAddressPoisoning blacklist svc { tx with «to» := jsToLowerCase tx.«to» } := by
  refine ⟨?_, ?_, ?_⟩
  · unfold AddressListService.isDarklisted
    rw [jsToLowerCase_idem]
  · unfold AddressListService.isLightlisted
    rw [jsToLowerCase_idem]
  · simp only [checkAddressPoisoning, jsToLowerCase_idem]

/-! ### C5 — denylisted destination is always critical -/

/-- **C5**: whenever the destination address matches an entry of the
static denylist under case-insensitive comparison, `checkAddressPoisoning`
returns `risk = critical`, `safe = false`, regardless of every other
transaction field (the hypothesis constrains only `tx.to`). -/
theorem checkAddressPoisoning_denylisted_critical
    (blacklist : List String) (svc : AddressListService) (tx : Tx)
    (h : ∃ addr ∈ blacklist, jsToLowerCase addr = jsToLowerCase tx.«to») :
    checkAddressPoisoning blacklist svc tx =
      ⟨false, .critical,
       "Destination address is known to be malicious (MyEtherWallet darklist)"⟩ := by
  obtain ⟨addr, hmem, heq⟩ := h
  have hany : (blacklist.any
      fun a => jsToLowerCase a == jsToLowerCase (jsToLowerCase tx.«to»)) = true :=
    List.any_eq_true.mpr
      ⟨addr, hmem, by rw [jsToLowerCase_idem, heq]; exact beq_self_eq_true _⟩
  simp only [checkAddressPoisoning, hany, if_true]

/-- Witness for C5: a concrete mixed-case denylist entry matching a
lowercase destination. -/
theorem checkAddressPoisoning_denylisted_critical_witness :
    checkAddressPoisoning ["0xABC"] witnessSvc witnessTx =
      ⟨false, .critical,
       "Destination address is known to be malicious (MyEtherWallet darklist)"⟩ :=
  checkAddressPoisoning_denylisted_critical ["0xABC"] witnessSvc witnessTx
    ⟨"0xABC", by decide, by decide⟩

/-! ### C6 — refresh failure preserves the snapshot -/

/-- **C6**: a failed `initialize`/refresh leaves the committed sets (and
`lastUpdate`) entirely unchanged — every subsequent `isDarklisted` /
`isLightlisted` query answers exactly as before the failed refresh — and
the sets are replaced (with the lowercased fetched addresses) only when
the joint fetch of both lists succeeds. -/
theorem initialize_failure_preserves_state
    (svc : AddressListService) (e : String) (now : Nat)
    (darkEntries lightEntries : List AddressEntry) (now2 : Nat) :
    (svc.initializeLists (.error e) now = (.error e, svc) ∧
     ∀ a, (svc.initializeLists (.error e) now).2.isDarklisted a = svc.isDarklisted a ∧
          (svc.initializeLists (.error e) now).2.isLightlisted a = svc.isLightlisted a) ∧
    (svc.initializeLists (.ok (darkEntries, lightEntries)) now2).2 =
      ⟨darkEntries.map (fun en => jsToLowerCase en.address),
       lightEntries.map (fun en => jsToLowerCase en.address), some now2⟩ :=
  ⟨⟨rfl, fun _ => ⟨rfl, rfl⟩⟩, rfl⟩

/-! ### C8 — unlimited-approval boundary -/

/-- **C8**: for a transaction decoded as `approve`, the check returns
`risk = high` exactly on an approved amount equal to `2^256 - 1` (as the
decimal string the decoder produces), returns `risk = none` on `2^256 - 2`,
and returns `risk = none` for any transaction not decoded as `approve`. -/
theorem checkApprovalRisks_boundary :
    (∀ tx dec ps p0 p1,
        tx.dataDecoded = some dec → dec.method = "approve" →
        dec.parameters = some ps → ps[0]? = some p0 → ps[1]? = some p1 →
        p1.value = Nat.repr (2 ^ 256 - 1) →
        checkApprovalRisks tx = .ok ⟨false, .high,
          "Infite Approval risk detected for token: " ++ p0.value⟩) ∧
    (∀ tx dec ps p0 p1,
        tx.dataDecoded = some dec → dec.method = "approve" →
        dec.parameters = some ps → ps[0]? = some p0 → ps[1]? = some p1 →
        p1.value = Nat.repr (2 ^ 256 - 2) →
        checkApprovalRisks tx = .ok ⟨true, .none, "No approval risks detected"⟩) ∧
    (∀ tx, (∀ dec, tx.dataDecoded = some dec → dec.method ≠ "approve") →
        checkApprovalRisks tx = .ok ⟨true, .none, "No approval risks detected"⟩) := by
  refine ⟨?_, ?_, ?_⟩
  · intro tx dec ps p0 p1 h1 h2 h3 h4 h5 h6
    simp [checkApprovalRisks, h1, h2, h3, h4, h5, h6, maxUint256]
  · intro tx dec ps p0 p1 h1 h2 h3 h4 h5 h6
    simp [checkApprovalRisks, h1, h2, h3, h4, h5, h6, maxUint256]
    decide
  · intro tx hne
    match htx : tx.dataDecoded with
    | Option.none => simp [checkApprovalRisks, htx]
    | some dec => simp [checkApprovalRisks, htx, hne dec htx]

/-- An `approve` for exactly `2^256 - 1` tokens. -/
def maxApproveTx : Tx :=
  ⟨"0xaaa", 0, Option.none,
   some ⟨"approve", some [⟨"0xtok"⟩, ⟨Nat.repr (2 ^ 256 - 1)⟩]⟩,
   Option.none, "h4", "t4"⟩

/-- An `approve` for `2^256 - 2` tokens. -/
def almostMaxApproveTx : Tx :=
  ⟨"0xaaa", 0, Option.none,
   some ⟨"approve", some [⟨"0xtok"⟩, ⟨Nat.repr (2 ^ 256 - 2)⟩]⟩,
   Option.none, "h5", "t5"⟩

/-- Witness for C8 at the three concrete boundary transactions. -/
theorem checkApprovalRisks_boundary_witness :
    checkApprovalRisks maxApproveTx =
      .ok ⟨false, .high, "Infite Approval risk detected for token: " ++ "0xtok"⟩ ∧
    checkApprovalRisks almostMaxApproveTx =
      .ok ⟨true, .none, "No approval risks detected"⟩ ∧
    checkApprovalRisks witnessTx =
      .ok ⟨true, .none, "No approval risks detected"⟩ :=
  ⟨checkApprovalRisks_boundary.1 maxApproveTx _ _ _ _ rfl rfl rfl rfl rfl rfl,
   checkApprovalRisks_boundary.2.1 almostMaxApproveTx _ _ _ _ rfl rfl rfl rfl rfl rfl,
   checkApprovalRisks_boundary.2.2 witnessTx (fun _ h => Option.noConfusion h)⟩

/-! ### C9 — strict value thresholds -/

/-- **C9**: `checkValueTransfer` escalates only on strict inequality
against the fixed thresholds (1 / 10 / 50 ETH in wei): a value exactly at
a threshold keeps the lower band, the threshold plus one wei escalates,
and any value at or below the low threshold yields `risk = none`. -/
theorem checkValueTransfer_strict_thresholds :
    (∀ tx, tx.value = highThreshold → (checkValueTransfer tx).risk = RiskLevel.medium) ∧
    (∀ tx, tx.value = highThreshold + 1 → (checkValueTransfer tx).risk = RiskLevel.high) ∧
    (∀ tx, tx.value = mediumThreshold → (checkValueTransfer tx).risk = RiskLevel.low) ∧
    (∀ tx, tx.value = mediumThreshold + 1 → (checkValueTransfer tx).risk = RiskLevel.medium) ∧
    (∀ tx, tx.value = lowThreshold → (checkValueTransfer tx).risk = RiskLevel.none) ∧
    (∀ tx, tx.value = lowThreshold + 1 → (checkValueTransfer tx).risk = RiskLevel.low) ∧
    (∀ tx, tx.value ≤ lowThreshold → (checkValueTransfer tx).risk = RiskLevel.none) := by
  refine ⟨?_, ?_, ?_, ?_, ?_, ?_, ?_⟩ <;> intro tx h <;>
    simp only [lowThreshold, mediumThreshold, highThreshold] at h <;>
    simp only [checkValueTransfer, h, lowThreshold, mediumThreshold, highThreshold] <;>
    first
      | rfl
      | (rw [if_neg (by omega), if_neg (by omega), if_neg (by omega)])

/-- Witness for C9 at the six boundary values and one value below the low
threshold. -/
theorem checkValueTransfer_strict_thresholds_witness :
    (checkValueTransfer { witnessTx with value := highThreshold }).risk = RiskLevel.medium ∧
    (checkValueTransfer { witnessTx with value := highThreshold + 1 }).risk = RiskLevel.high ∧
    (checkValueTransfer { witnessTx with value := mediumThreshold }).risk = RiskLevel.low ∧
    (checkValueTransfer { witnessTx with value := mediumThreshold + 1 }).risk = RiskLevel.medium ∧
    (checkValueTransfer { witnessTx with value := lowThreshold }).risk = RiskLevel.none ∧
    (checkValueTransfer { witnessTx with value := lowThreshold + 1 }).risk = RiskLevel.low ∧
    (checkValueTransfer witnessTx).risk = RiskLevel.none :=
  ⟨checkValueTransfer_strict_thresholds.1 _ rfl,
   checkValueTransfer_strict_thresholds.2.1 _ rfl,
   checkValueTransfer_strict_thresholds.2.2.1 _ rfl,
   checkValueTransfer_strict_thresholds.2.2.2.1 _ rfl,
   checkValueTransfer_strict_thresholds.2.2.2.2.1 _ rfl,
   checkValueTransfer_strict_thresholds.2.2.2.2.2.1 _ rfl,
   checkValueTransfer_strict_thresholds.2.2.2.2.2.2 witnessTx (by decide)⟩

/-! ### C10 — empty filtered queue -/

/-- **C10**: when the filtered queue of unexecuted transactions is empty,
the batch returns the `{safe: true}` shape with an empty
`transactionsResults` and `lastTransaction = undefined` (indexing the
empty list at `length - 1`), and the trace shows that no evaluation,
signing or confirmation was attempted. -/
theorem analyzePendingTransactions_empty_queue
    (evalTx : Tx → Except String Verdict) (signAndConfirm : Tx → Except String Unit)
    (transactions : List Tx)
    (h : transactions.filter (fun tx => tx.executionDate.isNone) = []) :
    analyzePendingTransactions evalTx signAndConfirm transactions =
      (.completed [] Option.none, ⟨[], [], []⟩) := by
  simp only [analyzePendingTransactions, h]
  rfl

/-- An already-executed transaction. -/
def executedTx : Tx :=
  ⟨"0xabc", 0, Option.none, Option.none, some "2025-01-01T00:00:00Z", "h6", "t6"⟩

/-- Witness for C10: a queue containing only an executed transaction,
processed with an evaluator and signer that would fail if ever invoked. -/
theorem analyzePendingTransactions_empty_queue_witness :
    analyzePendingTransactions (fun _ => .error "never called")
      (fun _ => .error "never called") [executedTx] =
      (.completed [] Option.none, ⟨[], [], []⟩) :=
  analyzePendingTransactions_empty_queue _ _ [executedTx] rfl

/-! ### Loop lemmas for the signing orchestrator -/

/-- The log entries produced by a signer `sc` over a list of safely
processed transactions. -/
def signLogsOf (sc : Tx → Except String Unit) (txs : List Tx) : List String :=
  txs.filterMap (fun t =>
    match sc t with
    | .ok _ => Option.none
    | .error e => some (signFailLog t e))

theorem processLoop_cons_safe (vf : Tx → Verdict) (sc : Tx → Except String Unit)
    (t : Tx) (l : List Tx) (results : List TxResult) (tr : BatchTrace)
    (ht : (vf t).safe = true) :
    processLoop (fun x => .ok (vf x)) sc (t :: l) results tr =
      processLoop (fun x => .ok (vf x)) sc l (results ++ [(vf t).toTxResult])
        ⟨tr.evaluated ++ [t], tr.signAttempts ++ [t],
         tr.errorLog ++ signLogsOf sc [t]⟩ := by
  cases hsc : sc t with
  | ok u => simp [processLoop, ht, hsc, signLogsOf]
  | error e => simp [processLoop, ht, hsc, signLogsOf]

theorem processLoop_cons_halt (vf : Tx → Verdict) (sc : Tx → Except String Unit)
    (t : Tx) (l : List Tx) (results : List TxResult) (tr : BatchTrace)
    (ht : (vf t).safe = false) :
    processLoop (fun x => .ok (vf x)) sc (t :: l) results tr =
      (some (.halted (vf t).securityChecks (vf t).summary (vf t).aiAnalysis),
       results ++ [(vf t).toTxResult],
       ⟨tr.evaluated ++ [t], tr.signAttempts, tr.errorLog⟩) := by
  simp [processLoop, ht]

theorem processLoop_safe_segment (vf : Tx → Verdict) (sc : Tx → Except String Unit) :
    ∀ (pre : List Tx), (∀ t ∈ pre, (vf t).safe = true) →
    ∀ (rest : List Tx) (results : List TxResult) (tr : BatchTrace),
    processLoop (fun x => .ok (vf x)) sc (pre ++ rest) results tr =
      processLoop (fun x => .ok (vf x)) sc rest
        (results ++ pre.map (fun t => (vf t).toTxResult))
        ⟨tr.evaluated ++ pre, tr.signAttempts ++ pre,
         tr.errorLog ++ signLogsOf sc pre⟩ := by
  intro pre
  induction pre with
  | nil =>
    intro _ rest results tr
    simp [signLogsOf]
  | cons t ts ih =>
    intro hpre rest results tr
    have ht : (vf t).safe = true := hpre t (by simp)
    have hts : ∀ x ∈ ts, (vf x).safe = true := fun x hx => hpre x (by simp [hx])
    rw [List.cons_append, processLoop_cons_safe vf sc t (ts ++ rest) results tr ht,
        ih hts rest]
    simp [signLogsOf, ← List.filterMap_append]

theorem filter_executionDate_eq_self (txs : List Tx)
    (h : ∀ t ∈ txs, t.executionDate = Option.none) :
    txs.filter (fun tx => tx.executionDate.isNone) = txs :=
  List.filter_eq_self.mpr (fun t ht => by rw [h t ht]; rfl)

/-! ### C3 — halt at the first unsafe transaction -/

/-- **C3**: over a queue of unexecuted transactions processed with a
deterministic evaluator, the batch walks the queue in order: every
transaction before the first unsafe one is evaluated and has signing
attempted, the batch halts at the first unsafe transaction returning its
`{safe: false, securityChecks, summary, aiAnalysis}` verdict, and no
transaction after it is ever evaluated or signed; when every transaction
is safe the batch returns `{safe: true, transactionsResults,
lastTransaction}` after evaluating and signing them all. -/
theorem batch_halts_at_first_bad :
    (∀ (vf : Tx → Verdict) (sc : Tx → Except String Unit)
       (pre : List Tx) (u : Tx) (post : List Tx),
      (∀ t ∈ pre ++ u :: post, t.executionDate = Option.none) →
      (∀ t ∈ pre, (vf t).safe = true) → (vf u).safe = false →
      (analyzePendingTransactions (fun t => .ok (vf t)) sc (pre ++ u :: post)).1 =
          .halted (vf u).securityChecks (vf u).summary (vf u).aiAnalysis ∧
      (analyzePendingTransactions (fun t => .ok (vf t)) sc (pre ++ u :: post)).2.evaluated =
          pre ++ [u] ∧
      (analyzePendingTransactions (fun t => .ok (vf t)) sc (pre ++ u :: post)).2.signAttempts =
          pre) ∧
    (∀ (vf : Tx → Verdict) (sc : Tx → Except String Unit) (txs : List Tx),
      (∀ t ∈ txs, t.executionDate = Option.none) →
      (∀ t ∈ txs, (vf t).safe = true) →
      analyzePendingTransactions (fun t => .ok (vf t)) sc txs =
        (.completed (txs.map (fun t => (vf t).toTxResult)) (txs.get? (txs.length - 1)),
         ⟨txs, txs, signLogsOf sc txs⟩)) := by
  constructor
  · intro vf sc pre u post hexec hpre hu
    have hfilter := filter_executionDate_eq_self (pre ++ u :: post) hexec
    simp only [analyzePendingTransactions, hfilter]
    rw [processLoop_safe_segment vf sc pre hpre (u :: post) [] ⟨[], [], []⟩,
        processLoop_cons_halt vf sc u post _ _ hu]
    simp
  · intro vf sc txs hexec hsafe
    have hfilter := filter_executionDate_eq_self txs hexec
    have hloop : processLoop (fun t => .ok (vf t)) sc txs [] ⟨[], [], []⟩ =
        (Option.none, txs.map (fun t => (vf t).toTxResult), ⟨txs, txs, signLogsOf sc txs⟩) := by
      have hshift := processLoop_safe_segment vf sc txs hsafe [] [] ⟨[], [], []⟩
      simpa [processLoop] using hshift
    simp only [analyzePendingTransactions, hfilter, hloop]

/-- The checks map of an unsafe demo verdict. -/
def badChecks : SecurityChecks :=
  { witnessChecks with
    addressPoisoning := ⟨false, .critical,
      "Destination address is known to be malicious (MyEtherWallet darklist)"⟩ }

/-- A second plain safe transaction. -/
def witnessTx2 : Tx :=
  ⟨"0xdef", 0, Option.none, Option.none, Option.none, "h7", "t7"⟩

/-- A third plain safe transaction. -/
def witnessTx3 : Tx :=
  ⟨"0xfed", 0, Option.none, Option.none, Option.none, "h8", "t8"⟩

/-- A concrete evaluator marking `witnessTx2` unsafe and everything else
safe. -/
def demoVerdicts : Tx → Verdict := fun t =>
  if t.transactionHash = "t7" then ⟨false, badChecks, "AI", "sum"⟩
  else ⟨true, witnessChecks, "AI", "sum"⟩

/-- Witness for C3: the batch `[safe, unsafe, safe]` halts at the second
transaction having signed only the first; a fully safe singleton batch
completes. -/
theorem batch_halts_at_first_bad_witness :
    ((analyzePendingTransactions (fun t => .ok (demoVerdicts t)) (fun _ => .ok ())
        ([witnessTx] ++ witnessTx2 :: [witnessTx3])).1 =
      .halted (demoVerdicts witnessTx2).securityChecks (demoVerdicts witnessTx2).summary
        (demoVerdicts witnessTx2).aiAnalysis ∧
     (analyzePendingTransactions (fun t => .ok (demoVerdicts t)) (fun _ => .ok ())
        ([witnessTx] ++ witnessTx2 :: [witnessTx3])).2.evaluated =
      [witnessTx] ++ [witnessTx2] ∧
     (analyzePendingTransactions (fun t => .ok (demoVerdicts t)) (fun _ => .ok ())
        ([witnessTx] ++ witnessTx2 :: [witnessTx3])).2.signAttempts = [witnessTx]) ∧
    analyzePendingTransactions (fun t => .ok (demoVerdicts t)) (fun _ => .ok ())
        [witnessTx] =
      (.completed ([witnessTx].map (fun t => (demoVerdicts t).toTxResult))
         ([witnessTx].get? ([witnessTx].length - 1)),
       ⟨[witnessTx], [witnessTx], signLogsOf (fun _ => .ok ()) [witnessTx]⟩) :=
  ⟨batch_halts_at_first_bad.1 demoVerdicts (fun _ => .ok ()) [witnessTx] witnessTx2
      [witnessTx3] (by decide) (by decide) (by decide),
   batch_halts_at_first_bad.2 demoVerdicts (fun _ => .ok ()) [witnessTx]
      (by decide) (by decide)⟩

/-! ### C7 — signing failures: logged, non-aborting, but absent from results -/

/-- A signer/confirmer that fails on `witnessTx` (hash `t1`) and succeeds
elsewhere. -/
def failFirstSigner : Tx → Except String Unit := fun t =>
  if t.transactionHash = "t1" then .error "submission failed" else .ok ()

set_option maxRecDepth 4096 in
/-- **C7** (counterexample): the submission error does NOT surface in the
per-transaction result entry. Running the real evaluator over two safe
transactions with a signer that fails on the first produces exactly the
same `BatchResult` — including the `transactionsResults` entries — as a
run whose signer always succeeds; the failure is visible only in the
error log, while both transactions are still evaluated and sign-attempted. -/
theorem signing_error_absent_from_results :
    (analyzePendingTransactions (analyzeTransaction [] witnessSvc (fun _ _ => "AI"))
        failFirstSigner [witnessTx, witnessTx2]).1 =
      (analyzePendingTransactions (analyzeTransaction [] witnessSvc (fun _ _ => "AI"))
        (fun _ => .ok ()) [witnessTx, witnessTx2]).1 ∧
    (analyzePendingTransactions (analyzeTransaction [] witnessSvc (fun _ _ => "AI"))
        failFirstSigner [witnessTx, witnessTx2]).2 =
      ⟨[witnessTx, witnessTx2], [witnessTx, witnessTx2],
       ["Failed to sign transaction t1: submission failed"]⟩ := by
  decide

/-- **C7** (amended): a failure while signing or submitting the
confirmation of a safe transaction is logged and does not abort the batch
— every transaction of an all-safe queue is still evaluated and
sign-attempted, each failed submission contributes its log entry, and the
batch completes — but the submission error does not surface in the
per-transaction result entry: the returned `BatchResult` (including every
`transactionsResults` entry) is identical to the one produced by a signer
that never fails. -/
theorem sign_failure_logged_not_aborting
    (vf : Tx → Verdict) (sc : Tx → Except String Unit) (txs : List Tx)
    (hexec : ∀ t ∈ txs, t.executionDate = Option.none)
    (hsafe : ∀ t ∈ txs, (vf t).safe = true) :
    (analyzePendingTransactions (fun t => .ok (vf t)) sc txs).2.evaluated = txs ∧
    (analyzePendingTransactions (fun t => .ok (vf t)) sc txs).2.signAttempts = txs ∧
    (analyzePendingTransactions (fun t => .ok (vf t)) sc txs).2.errorLog =
      signLogsOf sc txs ∧
    (analyzePendingTransactions (fun t => .ok (vf t)) sc txs).1 =
      (analyzePendingTransactions (fun t => .ok (vf t)) (fun _ => .ok ()) txs).1 := by
  have h1 := batch_halts_at_first_bad.2 vf sc txs hexec hsafe
  have h2 := batch_halts_at_first_bad.2 vf (fun _ => .ok ()) txs hexec hsafe
  rw [h1, h2]
  exact ⟨rfl, rfl, rfl, rfl⟩

/-- Witness for C7: two safe transactions with a signer failing on the
first. -/
theorem sign_failure_logged_not_aborting_witness :
    (analyzePendingTransactions (fun t => .ok (demoVerdicts t)) failFirstSigner
        [witnessTx, witnessTx3]).2.evaluated = [witnessTx, witnessTx3] ∧
    (analyzePendingTransactions (fun t => .ok (demoVerdicts t)) failFirstSigner
        [witnessTx, witnessTx3]).2.signAttempts = [witnessTx, witnessTx3] ∧
    (analyzePendingTransactions (fun t => .ok (demoVerdicts t)) failFirstSigner
        [witnessTx, witnessTx3]).2.errorLog =
      signLogsOf failFirstSigner [witnessTx, witnessTx3] ∧
    (analyzePendingTransactions (fun t => .ok (demoVerdicts t)) failFirstSigner
        [witnessTx, witnessTx3]).1 =
      (analyzePendingTransactions (fun t => .ok (demoVerdicts t)) (fun _ => .ok ())
        [witnessTx, witnessTx3]).1 :=
  sign_failure_logged_not_aborting demoVerdicts failFirstSigner
    [witnessTx, witnessTx3] (by decide) (by decide)

end SafeDuck
